import Mathlib

/-!
Verification development for the eks-example repository: a shallow embedding
of its two Pulumi programs as pure graph builders.

The repository contains two program variants:
* Variant A (`src/index.ts`): an EKS Auto Mode cluster with the AWS Load
  Balancer Controller and Gateway API routing.
* Variant B (embedded alongside `AWS_IAM_SETUP.md`): a fixed three-node EKS
  cluster in the default VPC with the NGINX ingress controller, cert-manager
  and an Ingress resource.

Each program is modelled as a pure function from its inputs (the Pulumi
configuration map and the values its data-source lookups read from the
environment) to an ordered list of resource declarations.  A declaration
records its logical name, resource kind, the claim-relevant attributes
(flattened to dotted key paths, with array positions as numeric components so
that source order is preserved), the explicit `dependsOn` list, and the
`provider` resource option.  Attribute values that reference another
declaration's output (a Pulumi `Output`) are recorded as `AttrVal.ref` with
the producing declaration's logical name; Pulumi registers every such output
reference as a dependency edge, which is mirrored by `predsOf` below.
Large static payload literals (the 240-line controller IAM policy document,
the inline HTML dashboard and the inline Node.js server script) are not
referenced by any claim and are represented by opaque literals.
-/

namespace EksExample

/-- JavaScript `String.replace` with a string pattern replaces only the first
occurrence of the pattern (helper on character lists).  An empty pattern
matches at the start of the string, as in JavaScript. -/
def replaceFirstAux (pat repl : List Char) : List Char → List Char
  | [] => if pat.isEmpty then repl else []
  | c :: cs =>
      if pat.isPrefixOf (c :: cs) then repl ++ (c :: cs).drop pat.length
      else c :: replaceFirstAux pat repl cs

/-- JavaScript `s.replace(pat, repl)` for a string pattern: replace the first
occurrence of `pat` in `s` by `repl`; if `pat` does not occur, return `s`
unchanged. -/
def jsReplaceFirst (s pat repl : String) : String :=
  ⟨replaceFirstAux pat.data repl.data s.data⟩

/-- `index.ts` line 82: `const oidcUrl = url.replace("https://", "");` —
the cluster's OIDC federation endpoint with the scheme stripped. -/
def stripHttpsScheme (url : String) : String :=
  jsReplaceFirst url "https://" ""

/-- One statement of an IAM assume-role (trust) policy document, as built by
`index.ts` lines 83-98. -/
structure TrustStatement where
  effect : String
  federatedPrincipal : String
  action : String
  conditionStringEquals : List (String × String)
deriving DecidableEq

/-- The trust statement of the load-balancer controller role
(`alb-controller-role`, `index.ts` lines 79-101), as a function of the OIDC
provider's ARN and URL reported by the control plane. -/
def albAssumeRolePolicyStatement (arn url : String) : TrustStatement :=
  { effect := "Allow"
    federatedPrincipal := arn
    action := "sts:AssumeRoleWithWebIdentity"
    conditionStringEquals :=
      [(stripHttpsScheme url ++ ":sub",
        "system:serviceaccount:kube-system:aws-load-balancer-controller"),
       (stripHttpsScheme url ++ ":aud", "sts.amazonaws.com")] }

/-- The condition keys of a trust statement, in order. -/
def conditionKeys (st : TrustStatement) : List String :=
  st.conditionStringEquals.map Prod.fst

/-- An attribute value of a resource declaration: a string literal, a number,
or a reference to another declaration's materialized output. -/
inductive AttrVal where
  | lit (s : String)
  | num (n : Nat)
  | ref (producer : String)
deriving DecidableEq

/-- A resource declaration: logical name, resource kind, claim-relevant
attributes (dotted key paths in source order), the explicit `dependsOn`
resource option, and the `provider` resource option. -/
structure Decl where
  name : String
  kind : String
  attrs : List (String × AttrVal)
  dependsOn : List String
  provider : Option String
deriving DecidableEq

/-- The declarations whose materialized outputs are consumed by `d`'s
attribute set (the `AttrVal.ref` targets, in attribute order). -/
def consumedRefs (d : Decl) : List String :=
  d.attrs.filterMap fun p =>
    match p.2 with
    | .ref producer => some producer
    | _ => none

/-- The predecessor edges of a declaration, as the Pulumi engine derives
them: the explicit `dependsOn` list, the `provider` resource, and every
declaration whose output is referenced by an attribute. -/
def predsOf (d : Decl) : List String :=
  d.dependsOn ++ d.provider.toList ++ consumedRefs d

/-- The dependency skeleton of a graph: each declaration's name paired with
its predecessor list, in declaration order. -/
def skeleton (ds : List Decl) : List (String × List String) :=
  ds.map fun d => (d.name, predsOf d)

/-- Checks that, scanning the declarations in order, every predecessor of a
declaration was already declared (no forward references).  When this holds
the declaration order itself is a valid topological order, so the graph is a
DAG and topological sort succeeds. -/
def declaredBeforeOk : List String → List (String × List String) → Bool
  | _, [] => true
  | seen, (n, ps) :: rest =>
      ps.all (fun p => seen.contains p) && declaredBeforeOk (n :: seen) rest

/-- Checks that every output reference consumed by a declaration's attributes
appears among its predecessor edges. -/
def consumedCovered (ds : List Decl) : Bool :=
  ds.all fun d => (consumedRefs d).all fun p => (predsOf d).contains p

/-- Look up a declaration by logical name. -/
def findDecl (ds : List Decl) (n : String) : Option Decl :=
  ds.find? fun d => d.name = n

/-- Look up an attribute of a declaration by dotted key path. -/
def attrOf (d : Decl) (k : String) : Option AttrVal :=
  (d.attrs.find? fun p => p.1 = k).map Prod.snd

/-- The (min replicas, max replicas, CPU-utilization target) triple of the
`backend-hpa` declaration of a graph, when present. -/
def hpaBounds (ds : List Decl) : Option (Nat × Nat × Nat) :=
  match findDecl ds "backend-hpa" with
  | none => none
  | some d =>
      match attrOf d "spec.minReplicas", attrOf d "spec.maxReplicas",
            attrOf d "spec.metrics.0.resource.target.averageUtilization" with
      | some (.num a), some (.num b), some (.num c) => some (a, b, c)
      | _, _, _ => none

namespace VariantA

/-- The values variant A (`src/index.ts`) reads from outside its own graph at
build time: `aws.getRegionOutput().name` at line 370, the region of the
ambient AWS provider. -/
structure Env where
  region : String
deriving DecidableEq

/-- The resource graph built by `src/index.ts`, in source declaration order.
`pulumi.Config` is constructed at line 8 but no configuration key is ever
read, so the build is a function of the environment lookup only.  The inline
HTML page, the inline Node.js server script and the static controller IAM
policy document are opaque literals here (no claim mentions their content);
probes, resource requests/limits and tags are likewise elided. -/
def build (e : Env) : List Decl :=
  [ { name := "eks-vpc", kind := "awsx:ec2:Vpc"
      attrs := [("cidrBlock", .lit "10.0.0.0/16"),
                ("numberOfAvailabilityZones", .num 3),
                ("subnetSpecs.0.type", .lit "Public"),
                ("subnetSpecs.0.cidrMask", .num 20),
                ("subnetSpecs.1.type", .lit "Private"),
                ("subnetSpecs.1.cidrMask", .num 20),
                ("natGateways.strategy", .lit "Single")]
      dependsOn := [], provider := none },
    { name := "eks-cluster", kind := "eks:Cluster"
      attrs := [("vpcId", .ref "eks-vpc"),
                ("privateSubnetIds", .ref "eks-vpc"),
                ("publicSubnetIds", .ref "eks-vpc"),
                ("autoMode.enabled", .lit "true"),
                ("authenticationMode", .lit "API"),
                ("skipDefaultNodeGroup", .lit "true"),
                ("skipDefaultSecurityGroups", .lit "true"),
                ("createOidcProvider", .lit "true"),
                ("version", .lit "1.31")]
      dependsOn := [], provider := none },
    { name := "k8s-provider", kind := "kubernetes:Provider"
      attrs := [("kubeconfig", .ref "eks-cluster")]
      dependsOn := [], provider := none },
    { name := "gateway-api-crds", kind := "kubernetes:yaml:ConfigFile"
      attrs := [("file", .lit "https://github.com/kubernetes-sigs/gateway-api/releases/download/v1.2.1/standard-install.yaml")]
      dependsOn := [], provider := some "k8s-provider" },
    { name := "alb-controller-role", kind := "aws:iam:Role"
      attrs := [("assumeRolePolicy", .ref "eks-cluster")]
      dependsOn := [], provider := none },
    { name := "alb-controller-policy", kind := "aws:iam:Policy"
      attrs := [("policy", .lit "static aws-load-balancer-controller policy document")]
      dependsOn := [], provider := none },
    { name := "alb-controller-policy-attachment", kind := "aws:iam:RolePolicyAttachment"
      attrs := [("role", .ref "alb-controller-role"),
                ("policyArn", .ref "alb-controller-policy")]
      dependsOn := [], provider := none },
    { name := "aws-load-balancer-controller", kind := "kubernetes:helm:Release"
      attrs := [("chart", .lit "aws-load-balancer-controller"),
                ("version", .lit "1.11.0"),
                ("repositoryOpts.repo", .lit "https://aws.github.io/eks-charts"),
                ("namespace", .lit "kube-system"),
                ("values.clusterName", .ref "eks-cluster"),
                ("values.serviceAccount.create", .lit "true"),
                ("values.serviceAccount.name", .lit "aws-load-balancer-controller"),
                ("values.serviceAccount.annotations.eks.amazonaws.com/role-arn", .ref "alb-controller-role"),
                ("values.region", .lit e.region),
                ("values.vpcId", .ref "eks-vpc")]
      dependsOn := ["gateway-api-crds", "alb-controller-policy-attachment"]
      provider := some "k8s-provider" },
    { name := "app-namespace", kind := "kubernetes:core:v1:Namespace"
      attrs := [("metadata.name", .lit "two-tier-app")]
      dependsOn := [], provider := some "k8s-provider" },
    { name := "backend", kind := "kubernetes:apps:v1:Deployment"
      attrs := [("metadata.namespace", .ref "app-namespace"),
                ("metadata.labels.app", .lit "backend"),
                ("spec.replicas", .num 2),
                ("spec.selector.matchLabels.app", .lit "backend"),
                ("spec.template.spec.containers.0.image", .lit "node:20-alpine"),
                ("spec.template.spec.containers.0.args", .lit "inline express server script"),
                ("spec.template.spec.containers.0.ports.0.containerPort", .num 3000),
                ("spec.template.spec.containers.0.env.0.name", .lit "NODE_ENV"),
                ("spec.template.spec.containers.0.env.0.value", .lit "production")]
      dependsOn := [], provider := some "k8s-provider" },
    { name := "backend-service", kind := "kubernetes:core:v1:Service"
      attrs := [("metadata.namespace", .ref "app-namespace"),
                ("metadata.name", .lit "backend"),
                ("spec.selector.app", .lit "backend"),
                ("spec.ports.0.port", .num 80),
                ("spec.ports.0.targetPort", .num 3000),
                ("spec.type", .lit "ClusterIP")]
      dependsOn := [], provider := some "k8s-provider" },
    { name := "backend-hpa", kind := "kubernetes:autoscaling:v2:HorizontalPodAutoscaler"
      attrs := [("metadata.namespace", .ref "app-namespace"),
                ("metadata.name", .lit "backend-hpa"),
                ("spec.scaleTargetRef.kind", .lit "Deployment"),
                ("spec.scaleTargetRef.name", .ref "backend"),
                ("spec.minReplicas", .num 2),
                ("spec.maxReplicas", .num 10),
                ("spec.metrics.0.resource.name", .lit "cpu"),
                ("spec.metrics.0.resource.target.type", .lit "Utilization"),
                ("spec.metrics.0.resource.target.averageUtilization", .num 70)]
      dependsOn := [], provider := some "k8s-provider" },
    { name := "frontend-html", kind := "kubernetes:core:v1:ConfigMap"
      attrs := [("metadata.namespace", .ref "app-namespace"),
                ("data.index.html", .lit "inline tailwind dashboard page")]
      dependsOn := [], provider := some "k8s-provider" },
    { name := "frontend", kind := "kubernetes:apps:v1:Deployment"
      attrs := [("metadata.namespace", .ref "app-namespace"),
                ("metadata.labels.app", .lit "frontend"),
                ("spec.replicas", .num 2),
                ("spec.selector.matchLabels.app", .lit "frontend"),
                ("spec.template.spec.containers.0.image", .lit "nginx:alpine"),
                ("spec.template.spec.containers.0.ports.0.containerPort", .num 80),
                ("spec.template.spec.volumes.0.configMap.name", .ref "frontend-html")]
      dependsOn := [], provider := some "k8s-provider" },
    { name := "frontend-service", kind := "kubernetes:core:v1:Service"
      attrs := [("metadata.namespace", .ref "app-namespace"),
                ("metadata.name", .lit "frontend"),
                ("spec.selector.app", .lit "frontend"),
                ("spec.ports.0.port", .num 80),
                ("spec.ports.0.targetPort", .num 80),
                ("spec.type", .lit "ClusterIP")]
      dependsOn := [], provider := some "k8s-provider" },
    { name := "app-gateway", kind := "kubernetes:apiextensions:CustomResource:Gateway"
      attrs := [("metadata.namespace", .ref "app-namespace"),
                ("metadata.name", .lit "app-gateway"),
                ("spec.gatewayClassName", .lit "aws-alb"),
                ("spec.listeners.0.name", .lit "http"),
                ("spec.listeners.0.protocol", .lit "HTTP"),
                ("spec.listeners.0.port", .num 80)]
      dependsOn := ["aws-load-balancer-controller"]
      provider := some "k8s-provider" },
    { name := "frontend-route", kind := "kubernetes:apiextensions:CustomResource:HTTPRoute"
      attrs := [("metadata.namespace", .ref "app-namespace"),
                ("metadata.name", .lit "frontend-route"),
                ("spec.parentRefs.0.name", .ref "app-gateway"),
                ("spec.rules.0.matches.0.path.type", .lit "PathPrefix"),
                ("spec.rules.0.matches.0.path.value", .lit "/api"),
                ("spec.rules.0.backendRefs.0.name", .ref "backend-service"),
                ("spec.rules.0.backendRefs.0.port", .num 80),
                ("spec.rules.1.matches.0.path.type", .lit "PathPrefix"),
                ("spec.rules.1.matches.0.path.value", .lit "/"),
                ("spec.rules.1.backendRefs.0.name", .ref "frontend-service"),
                ("spec.rules.1.backendRefs.0.port", .num 80)]
      dependsOn := ["app-gateway"]
      provider := some "k8s-provider" } ]

/-- The stack outputs exported by `src/index.ts` lines 708-713, in order. -/
def stackExports : List (String × AttrVal) :=
  [("kubeconfig", .ref "eks-cluster"),
   ("clusterName", .ref "eks-cluster"),
   ("vpcId", .ref "eks-vpc"),
   ("appNamespaceName", .ref "app-namespace"),
   ("frontendServiceName", .ref "frontend-service"),
   ("backendServiceName", .ref "backend-service")]

/-- The ordered path-routing rules of variant A's `frontend-route`
declaration: each rule's path-match value paired with the service declaration
its backend reference consumes. -/
def routeRulePairs (ds : List Decl) : Option (List (String × String)) :=
  match findDecl ds "frontend-route" with
  | none => none
  | some d =>
      match attrOf d "spec.rules.0.matches.0.path.value",
            attrOf d "spec.rules.0.backendRefs.0.name",
            attrOf d "spec.rules.1.matches.0.path.value",
            attrOf d "spec.rules.1.backendRefs.0.name" with
      | some (.lit p0), some (.ref b0), some (.lit p1), some (.ref b1) =>
          some [(p0, b0), (p1, b1)]
      | _, _, _, _ => none

end VariantA

/-- A Pulumi configuration bundle: the stack's key/value map, read through
`config.get` which yields the value when the key is set and nothing
otherwise. -/
def Config : Type := List (String × String)

/-- `config.get(key)`: the configured value, if any. -/
def configGet (cfg : Config) (k : String) : Option String :=
  (cfg.find? fun p => p.1 = k).map Prod.snd

/-- JavaScript `v || d` on an optional string: the default is used when the
value is absent or is the empty string (both falsy). -/
def jsOrDefault (v : Option String) (d : String) : String :=
  match v with
  | none => d
  | some s => if s = "" then d else s

namespace VariantB

/-- The values variant B reads from outside its own graph at build time: the
`aws.ec2.getVpc({default: true})` and `aws.ec2.getSubnets` data-source
lookups, which query the cloud account for its default VPC and that VPC's
subnets. -/
structure Env where
  defaultVpcId : String
  subnetIds : List String
deriving DecidableEq

/-- `const domain = config.get("domain") || "example.com";` -/
def domain (cfg : Config) : String :=
  jsOrDefault (configGet cfg "domain") "example.com"

/-- `const email = config.get("letsencryptEmail") || "admin@example.com";` -/
def email (cfg : Config) : String :=
  jsOrDefault (configGet cfg "letsencryptEmail") "admin@example.com"

/-- The resource graph built by variant B, in source declaration order, as a
function of the configuration bundle and the default-VPC environment lookup.
Resource requests/limits are elided (no claim mentions them). -/
def build (cfg : Config) (e : Env) : List Decl :=
  [ { name := "eks-cluster", kind := "eks:Cluster"
      attrs := [("vpcId", .lit e.defaultVpcId),
                ("subnetIds", .lit (String.intercalate "," e.subnetIds)),
                ("instanceType", .lit "t3.small"),
                ("desiredCapacity", .num 3),
                ("minSize", .num 3),
                ("maxSize", .num 3),
                ("createOidcProvider", .lit "true")]
      dependsOn := [], provider := none },
    { name := "k8s-provider", kind := "kubernetes:Provider"
      attrs := [("kubeconfig", .ref "eks-cluster")]
      dependsOn := [], provider := none },
    { name := "nginx-ingress", kind := "kubernetes:helm:Release"
      attrs := [("chart", .lit "ingress-nginx"),
                ("version", .lit "4.11.3"),
                ("repositoryOpts.repo", .lit "https://kubernetes.github.io/ingress-nginx"),
                ("namespace", .lit "ingress-nginx"),
                ("createNamespace", .lit "true"),
                ("values.controller.service.type", .lit "LoadBalancer"),
                ("values.controller.metrics.enabled", .lit "true")]
      dependsOn := [], provider := some "k8s-provider" },
    { name := "cert-manager", kind := "kubernetes:helm:Release"
      attrs := [("chart", .lit "cert-manager"),
                ("version", .lit "v1.16.2"),
                ("repositoryOpts.repo", .lit "https://charts.jetstack.io"),
                ("namespace", .lit "cert-manager"),
                ("createNamespace", .lit "true"),
                ("values.crds.enabled", .lit "true")]
      dependsOn := [], provider := some "k8s-provider" },
    { name := "app-namespace", kind := "kubernetes:core:v1:Namespace"
      attrs := [("metadata.name", .lit "microservices-app")]
      dependsOn := [], provider := some "k8s-provider" },
    { name := "letsencrypt-issuer", kind := "kubernetes:apiextensions:CustomResource:ClusterIssuer"
      attrs := [("metadata.name", .lit "letsencrypt-prod"),
                ("spec.acme.server", .lit "https://acme-v02.api.letsencrypt.org/directory"),
                ("spec.acme.email", .lit (email cfg)),
                ("spec.acme.privateKeySecretRef.name", .lit "letsencrypt-prod"),
                ("spec.acme.solvers.0.http01.ingress.class", .lit "nginx")]
      dependsOn := ["cert-manager"], provider := some "k8s-provider" },
    { name := "redis", kind := "kubernetes:apps:v1:Deployment"
      attrs := [("metadata.namespace", .ref "app-namespace"),
                ("metadata.labels.app", .lit "redis"),
                ("spec.replicas", .num 1),
                ("spec.selector.matchLabels.app", .lit "redis"),
                ("spec.template.spec.containers.0.image", .lit "redis:7-alpine"),
                ("spec.template.spec.containers.0.ports.0.containerPort", .num 6379)]
      dependsOn := [], provider := some "k8s-provider" },
    { name := "redis-service", kind := "kubernetes:core:v1:Service"
      attrs := [("metadata.namespace", .ref "app-namespace"),
                ("metadata.name", .lit "redis"),
                ("spec.selector.app", .lit "redis"),
                ("spec.ports.0.port", .num 6379),
                ("spec.ports.0.targetPort", .num 6379),
                ("spec.type", .lit "ClusterIP")]
      dependsOn := [], provider := some "k8s-provider" },
    { name := "backend", kind := "kubernetes:apps:v1:Deployment"
      attrs := [("metadata.namespace", .ref "app-namespace"),
                ("metadata.labels.app", .lit "backend"),
                ("spec.replicas", .num 2),
                ("spec.selector.matchLabels.app", .lit "backend"),
                ("spec.template.spec.containers.0.image", .lit "hashicorp/http-echo:latest"),
                ("spec.template.spec.containers.0.args.0", .lit "-text=Backend API v1.0"),
                ("spec.template.spec.containers.0.ports.0.containerPort", .num 5678),
                ("spec.template.spec.containers.0.env.0.name", .lit "REDIS_HOST"),
                ("spec.template.spec.containers.0.env.0.value", .lit "redis"),
                ("spec.template.spec.containers.0.env.1.name", .lit "REDIS_PORT"),
                ("spec.template.spec.containers.0.env.1.value", .lit "6379")]
      dependsOn := [], provider := some "k8s-provider" },
    { name := "backend-service", kind := "kubernetes:core:v1:Service"
      attrs := [("metadata.namespace", .ref "app-namespace"),
                ("metadata.name", .lit "backend"),
                ("spec.selector.app", .lit "backend"),
                ("spec.ports.0.port", .num 80),
                ("spec.ports.0.targetPort", .num 5678),
                ("spec.type", .lit "ClusterIP")]
      dependsOn := [], provider := some "k8s-provider" },
    { name := "backend-hpa", kind := "kubernetes:autoscaling:v2:HorizontalPodAutoscaler"
      attrs := [("metadata.namespace", .ref "app-namespace"),
                ("metadata.name", .lit "backend-hpa"),
                ("spec.scaleTargetRef.kind", .lit "Deployment"),
                ("spec.scaleTargetRef.name", .ref "backend"),
                ("spec.minReplicas", .num 2),
                ("spec.maxReplicas", .num 10),
                ("spec.metrics.0.resource.name", .lit "cpu"),
                ("spec.metrics.0.resource.target.type", .lit "Utilization"),
                ("spec.metrics.0.resource.target.averageUtilization", .num 70)]
      dependsOn := [], provider := some "k8s-provider" },
    { name := "frontend", kind := "kubernetes:apps:v1:Deployment"
      attrs := [("metadata.namespace", .ref "app-namespace"),
                ("metadata.labels.app", .lit "frontend"),
                ("spec.replicas", .num 2),
                ("spec.selector.matchLabels.app", .lit "frontend"),
                ("spec.template.spec.containers.0.image", .lit "nginx:alpine"),
                ("spec.template.spec.containers.0.ports.0.containerPort", .num 80),
                ("spec.template.spec.containers.0.env.0.name", .lit "BACKEND_URL"),
                ("spec.template.spec.containers.0.env.0.value", .lit "http://backend")]
      dependsOn := [], provider := some "k8s-provider" },
    { name := "frontend-service", kind := "kubernetes:core:v1:Service"
      attrs := [("metadata.namespace", .ref "app-namespace"),
                ("metadata.name", .lit "frontend"),
                ("spec.selector.app", .lit "frontend"),
                ("spec.ports.0.port", .num 80),
                ("spec.ports.0.targetPort", .num 80),
                ("spec.type", .lit "ClusterIP")]
      dependsOn := [], provider := some "k8s-provider" },
    { name := "app-ingress", kind := "kubernetes:networking:v1:Ingress"
      attrs := [("metadata.namespace", .ref "app-namespace"),
                ("metadata.annotations.cert-manager.io/cluster-issuer", .lit "letsencrypt-prod"),
                ("metadata.annotations.nginx.ingress.kubernetes.io/ssl-redirect", .lit "true"),
                ("spec.ingressClassName", .lit "nginx"),
                ("spec.tls.0.hosts.0", .lit (domain cfg)),
                ("spec.tls.0.secretName", .lit "app-tls-cert"),
                ("spec.rules.0.host", .lit (domain cfg)),
                ("spec.rules.0.http.paths.0.path", .lit "/api"),
                ("spec.rules.0.http.paths.0.pathType", .lit "Prefix"),
                ("spec.rules.0.http.paths.0.backend.service.name", .ref "backend-service"),
                ("spec.rules.0.http.paths.0.backend.service.port.number", .num 80),
                ("spec.rules.0.http.paths.1.path", .lit "/"),
                ("spec.rules.0.http.paths.1.pathType", .lit "Prefix"),
                ("spec.rules.0.http.paths.1.backend.service.name", .ref "frontend-service"),
                ("spec.rules.0.http.paths.1.backend.service.port.number", .num 80)]
      dependsOn := ["nginx-ingress", "letsencrypt-issuer"]
      provider := some "k8s-provider" } ]

/-- `export const appUrl = pulumi.interpolate https://${domain};` -/
def appUrl (cfg : Config) : String :=
  "https://" ++ domain cfg

/-- The stack outputs exported by variant B, in order. -/
def stackExports (cfg : Config) : List (String × AttrVal) :=
  [("kubeconfig", .ref "eks-cluster"),
   ("clusterName", .ref "eks-cluster"),
   ("appUrl", .lit (appUrl cfg)),
   ("getLoadBalancerCommand",
    .lit "kubectl get svc -n ingress-nginx ingress-nginx-controller -o jsonpath=\x27\x7b.status.loadBalancer.ingress[0].hostname\x7d\x27")]

/-- The ordered path-routing rules of variant B's `app-ingress` declaration:
each path value paired with the service declaration its backend consumes. -/
def ingressPathPairs (ds : List Decl) : Option (List (String × String)) :=
  match findDecl ds "app-ingress" with
  | none => none
  | some d =>
      match attrOf d "spec.rules.0.http.paths.0.path",
            attrOf d "spec.rules.0.http.paths.0.backend.service.name",
            attrOf d "spec.rules.0.http.paths.1.path",
            attrOf d "spec.rules.0.http.paths.1.backend.service.name" with
      | some (.lit p0), some (.ref b0), some (.lit p1), some (.ref b1) =>
          some [(p0, b0), (p1, b1)]
      | _, _, _, _ => none

end VariantB

/-! Helper lemmas about the no-forward-reference check. -/

/-- If the ordered scan `declaredBeforeOk` succeeds, then every predecessor of
the `i`-th entry is either in the initial `seen` set or among the names of the
entries strictly before `i`. -/
theorem declaredBeforeOk_mem :
    ∀ (l : List (String × List String)) (seen : List String),
      declaredBeforeOk seen l = true →
      ∀ i : Fin l.length, ∀ p ∈ (l.get i).2,
        p ∈ seen ∨ p ∈ (l.take i.1).map Prod.fst := by
  intro l
  induction l with
  | nil =>
      intro seen _ i
      exact absurd i.2 (by simp)
  | cons hd tl ih =>
      intro seen h i p hp
      rw [declaredBeforeOk, Bool.and_eq_true, List.all_eq_true] at h
      obtain ⟨h1, h2⟩ := h
      rcases i with ⟨iv, hi⟩
      cases iv with
      | zero =>
          left
          have := h1 p hp
          simpa [List.contains, List.elem_iff] using this
      | succ j =>
          have hj : j < tl.length := Nat.lt_of_succ_lt_succ hi
          have := ih (hd.1 :: seen) h2 ⟨j, hj⟩ p hp
          rcases this with hmem | hmem
          · rcases List.mem_cons.mp hmem with heq | hseen
            · right
              simp [heq]
            · exact Or.inl hseen
          · right
            simpa using Or.inr hmem

/-- With an empty initial `seen` set, a successful `declaredBeforeOk` scan
means the declaration order is a topological order: each entry's
predecessors all occur among the names of strictly earlier entries. -/
theorem declaredBeforeOk_topo (l : List (String × List String))
    (h : declaredBeforeOk [] l = true) (i : Fin l.length) (p : String)
    (hp : p ∈ (l.get i).2) : p ∈ (l.take i.1).map Prod.fst := by
  rcases declaredBeforeOk_mem l [] h i p hp with h' | h'
  · exact absurd h' (List.not_mem_nil p)
  · exact h'

/-! Claim theorems. -/

/-- Claim C1: for every federation endpoint URL reported by the control
plane, the load-balancer controller role's trust statement references the
endpoint in its subject and audience condition keys with the scheme marker
"https://" stripped, and the stripped value is derived programmatically from
the endpoint (`albAssumeRolePolicyStatement` is a function of the reported
URL, applying `stripHttpsScheme`); in particular, for the endpoint
"https://token.example.org/id/ABC" the subject condition key references
"token.example.org/id/ABC". -/
theorem c1_trust_statement_references_stripped_endpoint :
    (∀ arn url : String,
      conditionKeys (albAssumeRolePolicyStatement arn url) =
        [stripHttpsScheme url ++ ":sub", stripHttpsScheme url ++ ":aud"]) ∧
    stripHttpsScheme "https://token.example.org/id/ABC" =
      "token.example.org/id/ABC" ∧
    conditionKeys
        (albAssumeRolePolicyStatement
          "arn:aws:iam::123456789012:oidc-provider/token.example.org/id/ABC"
          "https://token.example.org/id/ABC") =
      ["token.example.org/id/ABC:sub", "token.example.org/id/ABC:aud"] :=
  ⟨fun _ _ => rfl, by decide, by decide⟩

/-- Claim C2 (amended): graph construction is deterministic as a function of
the configuration bundle together with the values its build-time data-source
lookups read from the environment; equal configuration and equal environment
reads yield identical declarations, so an unchanged re-run reproduces the
graph byte for byte. -/
theorem c2_determinism_in_config_and_env :
    ∀ (cfg₁ cfg₂ : Config) (e₁ e₂ : VariantB.Env) (f₁ f₂ : VariantA.Env),
      cfg₁ = cfg₂ → e₁ = e₂ → f₁ = f₂ →
      VariantB.build cfg₁ e₁ = VariantB.build cfg₂ e₂ ∧
      VariantA.build f₁ = VariantA.build f₂ := by
  intro cfg₁ cfg₂ e₁ e₂ f₁ f₂ hc he hf
  subst hc; subst he; subst hf
  exact ⟨rfl, rfl⟩

/-- Witness for C2's amended determinism theorem at concrete inputs. -/
theorem c2_determinism_witness :
    VariantB.build [("domain", "example.com")] ⟨"vpc-0a1b2c3d", ["subnet-1"]⟩ =
      VariantB.build [("domain", "example.com")] ⟨"vpc-0a1b2c3d", ["subnet-1"]⟩ ∧
    VariantA.build ⟨"us-west-2"⟩ = VariantA.build ⟨"us-west-2"⟩ :=
  c2_determinism_in_config_and_env
    [("domain", "example.com")] [("domain", "example.com")]
    ⟨"vpc-0a1b2c3d", ["subnet-1"]⟩ ⟨"vpc-0a1b2c3d", ["subnet-1"]⟩
    ⟨"us-west-2"⟩ ⟨"us-west-2"⟩ rfl rfl rfl

/-- Counterexample to claim C2 as stated: with the same (empty) configuration
bundle, two runs of variant B whose default-VPC data-source lookup returns a
different VPC id produce different declarations — the cluster declaration's
`vpcId` attribute embeds the looked-up value — so sameness of the
configuration alone does not make the declarations byte-identical. -/
theorem c2_determinism_counterexample :
    VariantB.build [] ⟨"vpc-0a1b2c3d", ["subnet-aaaa", "subnet-bbbb"]⟩ ≠
      VariantB.build [] ⟨"vpc-9z8y7x6w", ["subnet-aaaa", "subnet-bbbb"]⟩ := by
  decide

/-- Claim C3: in both variants every declaration's predecessors (explicit
`dependsOn` entries, the provider, and output references) are declared
strictly before it — the ordered scan `declaredBeforeOk` succeeds — and
consequently the declaration order itself is a topological order of the
dependency graph, so the graph is acyclic and topological sort succeeds. -/
theorem c3_no_forward_refs_topological_order :
    ∀ (e : VariantA.Env) (cfg : Config) (f : VariantB.Env),
      declaredBeforeOk [] (skeleton (VariantA.build e)) = true ∧
      declaredBeforeOk [] (skeleton (VariantB.build cfg f)) = true ∧
      (∀ i : Fin (skeleton (VariantA.build e)).length,
        ∀ p ∈ ((skeleton (VariantA.build e)).get i).2,
          p ∈ ((skeleton (VariantA.build e)).take i.1).map Prod.fst) ∧
      (∀ i : Fin (skeleton (VariantB.build cfg f)).length,
        ∀ p ∈ ((skeleton (VariantB.build cfg f)).get i).2,
          p ∈ ((skeleton (VariantB.build cfg f)).take i.1).map Prod.fst) := by
  intro e cfg f
  refine ⟨rfl, rfl, ?_, ?_⟩
  · intro i p hp
    exact declaredBeforeOk_topo (skeleton (VariantA.build e)) rfl i p hp
  · intro i p hp
    exact declaredBeforeOk_topo (skeleton (VariantB.build cfg f)) rfl i p hp

/-- Witness for C3 at concrete inputs: the scan succeeds on variant A, and
the last declaration's predecessor "app-gateway" indeed occurs among the
sixteen declarations before it. -/
theorem c3_topological_order_witness :
    declaredBeforeOk [] (skeleton (VariantA.build ⟨"us-west-2"⟩)) = true ∧
    "app-gateway" ∈
      ((skeleton (VariantA.build ⟨"us-west-2"⟩)).take 16).map Prod.fst := by
  obtain ⟨h1, _, h3, _⟩ :=
    c3_no_forward_refs_topological_order ⟨"us-west-2"⟩ []
      ⟨"vpc-0a1b2c3d", ["subnet-1"]⟩
  exact ⟨h1, h3 ⟨16, by decide⟩ "app-gateway" (by decide)⟩

/-- Claim C4: every declaration whose attribute set consumes another
declaration's materialized output (an `AttrVal.ref`) has a predecessor edge
to that producer, in both variants; in particular the Helm release of the
load-balancer controller has edges to the cluster (whose name it consumes),
the controller role (whose ARN it consumes) and the VPC, and each variant's
autoscaler has an edge to the backend deployment whose name it consumes. -/
theorem c4_consumed_outputs_have_edges :
    ∀ (e : VariantA.Env) (cfg : Config) (f : VariantB.Env),
      consumedCovered (VariantA.build e) = true ∧
      consumedCovered (VariantB.build cfg f) = true ∧
      (findDecl (VariantA.build e) "aws-load-balancer-controller").map predsOf =
        some ["gateway-api-crds", "alb-controller-policy-attachment",
              "k8s-provider", "eks-cluster", "alb-controller-role", "eks-vpc"] ∧
      (findDecl (VariantA.build e) "backend-hpa").map consumedRefs =
        some ["app-namespace", "backend"] ∧
      (findDecl (VariantB.build cfg f) "backend-hpa").map predsOf =
        some ["k8s-provider", "app-namespace", "backend"] :=
  fun _ _ _ => ⟨rfl, rfl, rfl, rfl, rfl⟩

/-- Claim C5 (amended): the autoscaler declaration's minimum replicas,
maximum replicas and CPU-utilization target equal exactly 2, 10 and 70 — in
both variants and for every configuration bundle.  The bounds are hard-coded
constants: the builder reads no autoscaler configuration keys, so no
configuration is ever rejected on account of the autoscaler bounds. -/
theorem c5_hpa_bounds_constant :
    ∀ (cfg : Config) (e : VariantB.Env) (f : VariantA.Env),
      hpaBounds (VariantB.build cfg e) = some (2, 10, 70) ∧
      hpaBounds (VariantA.build f) = some (2, 10, 70) :=
  fun _ _ _ => ⟨rfl, rfl⟩

/-- Counterexample to claim C5 as stated: a configuration bundle carrying an
autoscaler minimum of 0, and one carrying max strictly below min, are not
rejected — graph construction still produces the full 14-declaration graph,
with the autoscaler bounds at their hard-coded values 2/10/70 (the
configured values are never read). -/
theorem c5_no_rejection_counterexample :
    (VariantB.build [("hpaMinReplicas", "0")]
        ⟨"vpc-0a1b2c3d", ["subnet-1"]⟩).length = 14 ∧
    hpaBounds (VariantB.build [("hpaMinReplicas", "0")]
        ⟨"vpc-0a1b2c3d", ["subnet-1"]⟩) = some (2, 10, 70) ∧
    (VariantB.build [("hpaMinReplicas", "5"), ("hpaMaxReplicas", "3")]
        ⟨"vpc-0a1b2c3d", ["subnet-1"]⟩).length = 14 ∧
    hpaBounds (VariantB.build [("hpaMinReplicas", "5"), ("hpaMaxReplicas", "3")]
        ⟨"vpc-0a1b2c3d", ["subnet-1"]⟩) = some (2, 10, 70) := by
  decide

/-- Claim C6: with the configuration value domain = "example.com", the
application base URL output equals exactly "https://example.com", and that is
the value of the exported `appUrl` output. -/
theorem c6_app_url_for_example_domain :
    VariantB.appUrl [("domain", "example.com")] = "https://example.com" ∧
    ((VariantB.stackExports [("domain", "example.com")]).find?
        (fun p => p.1 = "appUrl")).map Prod.snd =
      some (.lit "https://example.com") := by
  decide

/-- Claim C7 (amended): variant B's outputs are the cluster access
credentials bundle (kubeconfig), the cluster identifier, the application base
URL, and the operator command that retrieves the load-balancer hostname;
variant A's outputs are the credentials bundle, the cluster identifier, the
VPC id and the namespace/service names — variant A exposes no application
base URL and no load-balancer hostname or retrieval command. -/
theorem c7_stack_outputs_amended :
    ∀ cfg : Config,
      (VariantB.stackExports cfg).map Prod.fst =
        ["kubeconfig", "clusterName", "appUrl", "getLoadBalancerCommand"] ∧
      VariantA.stackExports.map Prod.fst =
        ["kubeconfig", "clusterName", "vpcId", "appNamespaceName",
         "frontendServiceName", "backendServiceName"] :=
  fun _ => ⟨rfl, rfl⟩

/-- Counterexample to claim C7 as stated: variant A's export list contains
neither an application base URL nor a load-balancer hostname or retrieval
command — its exports are exactly the six listed names, every one of them a
raw resource-output reference (so none is a constructed URL or a command
string). -/
theorem c7_variant_a_outputs_counterexample :
    VariantA.stackExports.map Prod.fst =
      ["kubeconfig", "clusterName", "vpcId", "appNamespaceName",
       "frontendServiceName", "backendServiceName"] ∧
    "appUrl" ∉ VariantA.stackExports.map Prod.fst ∧
    "getLoadBalancerCommand" ∉ VariantA.stackExports.map Prod.fst ∧
    (VariantA.stackExports.all fun p =>
      match p.2 with
      | .ref _ => true
      | _ => false) = true := by
  decide

/-- Claim C8: graph construction never fails on a missing configuration
value: the builders are total functions of the configuration (the source
reads configuration only through `config.get`, which cannot throw, and every
read value carries a documented default — domain "example.com", contact email
"admin@example.com" — used when the key is absent); and the declarations'
logical names are pairwise distinct in both variants, so the one remaining
build-time failure mode (two declarations claiming the same logical name,
which the engine rejects) cannot trigger. -/
theorem c8_no_missing_config_failure :
    ∀ (cfg : Config) (e : VariantB.Env) (f : VariantA.Env),
      (VariantB.build cfg e).length = 14 ∧
      (VariantA.build f).length = 17 ∧
      VariantB.domain [] = "example.com" ∧
      VariantB.email [] = "admin@example.com" ∧
      ((findDecl (VariantB.build [] e) "app-ingress").bind
        (fun d => attrOf d "spec.rules.0.host")) = some (.lit "example.com") ∧
      ((VariantB.build cfg e).map Decl.name).Nodup ∧
      ((VariantA.build f).map Decl.name).Nodup := by
  intro cfg e f
  refine ⟨rfl, rfl, rfl, rfl, rfl, ?_, ?_⟩
  · have h : (VariantB.build cfg e).map Decl.name =
        ["eks-cluster", "k8s-provider", "nginx-ingress", "cert-manager",
         "app-namespace", "letsencrypt-issuer", "redis", "redis-service",
         "backend", "backend-service", "backend-hpa", "frontend",
         "frontend-service", "app-ingress"] := rfl
    rw [h]; decide
  · have h : (VariantA.build f).map Decl.name =
        ["eks-vpc", "eks-cluster", "k8s-provider", "gateway-api-crds",
         "alb-controller-role", "alb-controller-policy",
         "alb-controller-policy-attachment", "aws-load-balancer-controller",
         "app-namespace", "backend", "backend-service", "backend-hpa",
         "frontend-html", "frontend", "frontend-service", "app-gateway",
         "frontend-route"] := rfl
    rw [h]; decide

/-- Claim C9 (amended): graph construction's only product is the declaration
list, whose dependency structure (names and edges) is fixed independently of
configuration and environment; but construction does perform build-time
environment/cloud reads — the provider region in variant A, the default VPC
and its subnets in variant B — whose values flow into declaration
attributes. -/
theorem c9_build_reads_amended :
    ∀ (cfg : Config) (e : VariantB.Env) (f : VariantA.Env),
      skeleton (VariantB.build cfg e) =
        skeleton (VariantB.build [] ⟨"", []⟩) ∧
      skeleton (VariantA.build f) = skeleton (VariantA.build ⟨""⟩) ∧
      (VariantB.build cfg e).length = 14 ∧
      (VariantA.build f).length = 17 :=
  fun _ _ _ => ⟨rfl, rfl, rfl, rfl⟩

/-- Counterexample to claim C9 as stated: graph construction does read from
the environment and the cloud platform.  With identical configuration, a
different subnet lookup result (variant B) or a different ambient provider
region (variant A) changes the produced declarations, which is impossible
for a builder that "reads nothing from the environment or the cloud
platform". -/
theorem c9_env_read_counterexample :
    VariantB.build [] ⟨"vpc-0a1b2c3d", ["subnet-1111"]⟩ ≠
      VariantB.build [] ⟨"vpc-0a1b2c3d", ["subnet-2222"]⟩ ∧
    VariantA.build ⟨"us-west-2"⟩ ≠ VariantA.build ⟨"eu-central-1"⟩ := by
  decide

/-- Claim C10: in both variants the traffic-exposure declaration's rules list
the "/api" path-match (routing to the backend service) strictly before the
catch-all "/" path-match (routing to the frontend service). -/
theorem c10_api_rule_precedes_catchall :
    ∀ (e : VariantA.Env) (cfg : Config) (f : VariantB.Env),
      VariantA.routeRulePairs (VariantA.build e) =
        some [("/api", "backend-service"), ("/", "frontend-service")] ∧
      VariantB.ingressPathPairs (VariantB.build cfg f) =
        some [("/api", "backend-service"), ("/", "frontend-service")] :=
  fun _ _ _ => ⟨rfl, rfl⟩

end EksExample
